import Mathlib

/-!
Verification of the LangGraph retrieval-augmented orchestration pipeline
(backend/app/langgraph + backend/app/mcp/tools.py + backend/app/db/pgvector_client.py).

The Python code is shallowly embedded: every pure transformation of the
conversation state is a Lean function translated line-by-line from the source;
the three remote providers (chat model, embedding model, pgvector SQL round
trip) are external capabilities and appear as oracle fields of an `Env`
record, each returning `Except String _` where `Except.error msg` models a
raised exception carrying `msg`. Python `None`-able strings are `Option
String`; a raised exception escaping a modeled region is an `Except.error`
threaded through that region.
-/

namespace FinKuRN

/-- A Python string-or-None value. `none` is Python `None`. -/
abbrev PyStr := Option String

/-- One conversation message dict with keys role and content. -/
structure Message where
  role : String
  content : String
deriving DecidableEq

/-- Python truthiness-based `or` on string-or-None values: `a or b` yields `b`
when `a` is `None` or the empty string, else `a`.  Embeds uses such as
`row[7] or row[6]` in PgVectorClient.search. -/
def pyOr (a b : PyStr) : PyStr :=
  match a with
  | none => b
  | some s => if s = "" then b else some s

/-- One row fetched by the SQL query in PgVectorClient.search.  Column indexes
follow the SELECT list: row[0]=id, row[1]=policy_number, row[2]=policy_name,
row[3]=category, row[4]=region, row[5]=deadline, row[6]=summary,
row[7]=full_text, row[8]=filename.  `sqlSimilarity` is row[18], the value the
SQL itself computes as `1 - (embedding <=> query)`, i.e. one minus the cosine
distance, aliased similarity_score in the SELECT.  Columns 9 to 17 are
payload threaded untouched into the metadata dict and are omitted here
because no downstream code or claim reads them.  Nullable text columns are
`PyStr`. -/
structure Row where
  id : Nat
  policy_number : PyStr
  policy_name : PyStr
  category : PyStr
  region : PyStr
  deadline : PyStr
  summary : PyStr
  full_text : PyStr
  filename : PyStr
  sqlSimilarity : ℚ
deriving DecidableEq

/-- The metadata dict built by PgVectorClient.search for one row.  Every key
listed here is always present in the dict (possibly with a `None` value);
the dict is passed through `json.dumps` and re-parsed with `json.loads` in
search_policies, which is the identity on this payload, so it is threaded
structurally. -/
structure Metadata where
  title : PyStr
  description : PyStr
  category : PyStr
  region : PyStr
  deadline : PyStr
  summary : PyStr
  full_text : PyStr
  filename : PyStr
deriving DecidableEq

/-- Builds the metadata dict of PgVectorClient.search: title is row[2],
description is `row[7] or row[6]` (full_text falling back to summary under
Python truthiness), and the remaining columns are copied. -/
def pgMetadata (r : Row) : Metadata :=
  { title := r.policy_name
    description := pyOr r.full_text r.summary
    category := r.category
    region := r.region
    deadline := r.deadline
    summary := r.summary
    full_text := r.full_text
    filename := r.filename }

/-- Zero-padded three-digit rendering used by the Python format spec 03d. -/
def pad3 (n : Nat) : String :=
  if n < 10 then "00" ++ toString n
  else if n < 100 then "0" ++ toString n
  else toString n

/-- The fallback policy id string POLICY_nnn built from row[0]. -/
def defaultPolicyId (n : Nat) : String := "POLICY_" ++ pad3 n

/-- Embeds `row[1] or f-string fallback`: the policy_number column under
Python truthiness, defaulting to the generated POLICY_nnn id. -/
def pgPolicyId (r : Row) : String :=
  match r.policy_number with
  | none => defaultPolicyId r.id
  | some s => if s = "" then defaultPolicyId r.id else s

/-- One element of the results list returned by PgVectorClient.search.
`distance` is the Python expression `1.0 - float(row[18])`, annotated in the
source as the distance where lower means more similar. -/
structure PgResult where
  id : Nat
  policy_id : String
  distance : ℚ
  metadata : Metadata
deriving DecidableEq

/-- Per-row formatting of PgVectorClient.search: the appended dict with id,
policy_id, distance = 1.0 - row[18], and the metadata payload. -/
def pgFormatRow (r : Row) : PgResult :=
  { id := r.id
    policy_id := pgPolicyId r
    distance := 1 - r.sqlSimilarity
    metadata := pgMetadata r }

/-- PgVectorClient.search minus the external SQL round trip: the cursor rows
(already ordered by the database via ORDER BY embedding <=> query) are
formatted one by one in fetch order. -/
def pgSearch (rows : List Row) : List PgResult := rows.map pgFormatRow

/-- Round-half-to-even of a rational to an integer, the idealization of
Python round() on the exact value. -/
def roundHalfEven (q : ℚ) : ℤ :=
  let n := ⌊q⌋
  let f := q - n
  if f < 1/2 then n
  else if 1/2 < f then n + 1
  else if n % 2 = 0 then n else n + 1

/-- Python round(x, 4) on the exact rational value. -/
def round4 (q : ℚ) : ℚ := (roundHalfEven (q * 10000) : ℚ) / 10000

/-- One normalized candidate dict appended to formatted_results by
search_policies in mcp/tools.py.  `age_range` is a plain String because the
metadata dict built by PgVectorClient.search never contains an age_range
key, so `metadata.get` always yields its empty-string default there; every
other key is always present in the parsed metadata dict, so its `metadata.get`
returns the stored value (possibly `None`) and those defaults never fire. -/
structure Candidate where
  policy_id : String
  title : PyStr
  description : PyStr
  category : PyStr
  age_range : String
  region : PyStr
  similarity_score : ℚ
  metadata : Metadata
deriving DecidableEq

/-- The per-hit normalization loop body of search_policies (Step 3 in
mcp/tools.py): json.loads of the metadata string (structural identity here),
dict lookups with their defaults, and similarity_score set to
`round(result.get("distance", 0), 4)` — the distance key is always present
in the dict built by PgVectorClient.search. -/
def toolFormat (res : PgResult) : Candidate :=
  { policy_id := res.policy_id
    title := res.metadata.title
    description := res.metadata.description
    category := res.metadata.category
    age_range := ""
    region := res.metadata.region
    similarity_score := round4 res.distance
    metadata := res.metadata }

/-- One entry of the intermediate_steps trace.  The source's
add_intermediate_step also stores a wall-clock timestamp (datetime.utcnow,
an external effect) and free-form keyword details; no claim reads them, so
only the agent and action tags are modeled. -/
structure Step where
  agent : String
  action : String
deriving DecidableEq

/-- The shared AgentState TypedDict of langgraph/state.py.  Every key of the
TypedDict is written by create_initial_state, so in every dict reaching the
agents or the routing functions the keys are present and Python
`state.get(key, default)` returns the stored value (possibly `None`, modeled
as `none`) without consulting its default.  user_context values only ever
flow into prompt text, so the mapping is modeled as string pairs;
eligibility_results is never read or written by the three agents and is kept
as an opaque optional payload. -/
structure AgentState where
  messages : List Message
  current_agent : PyStr
  next_action : PyStr
  user_context : List (String × String)
  search_results : List Candidate
  related_policies : List Candidate
  eligibility_results : Option (List (String × String))
  intermediate_steps : List Step
  final_response : PyStr
  error : PyStr
deriving DecidableEq

/-- create_initial_state of langgraph/state.py. -/
def createInitialState (userMessage : String)
    (userContext : List (String × String)) : AgentState :=
  { messages := [⟨"user", userMessage⟩]
    current_agent := some "supervisor"
    next_action := none
    user_context := userContext
    search_results := []
    related_policies := []
    eligibility_results := none
    intermediate_steps := []
    final_response := none
    error := none }

/-- add_intermediate_step of langgraph/state.py, restricted to the modeled
fields: appends one trace entry. -/
def addStep (s : AgentState) (agent action : String) : AgentState :=
  { s with intermediate_steps := s.intermediate_steps ++ [⟨agent, action⟩] }

/-- Outcome of `json.loads(response.content)` followed by the two dict reads
in supervisor_agent.  `notJson` models a raised json.JSONDecodeError;
`dict naField reasoningField` models a parsed JSON object where each field is
`none` when the key is absent and `some v` when present with value `v`
(`some none` being an explicit JSON null). -/
inductive SupOutcome where
  | notJson
  | dict (naField : Option PyStr) (reasoningField : Option PyStr)

/-- The external capabilities of the pipeline.  Each field is one remote call
site; `Except.error msg` models the call raising an exception rendered as
`msg` by Python str().  The oracles are deterministic functions of everything
the source sends them (prompts are functions of the state, so the state is
passed). rowsFor models the pgvector SQL round trip: cursor.execute plus
fetchall, returning rows already ordered by the database (ORDER BY
embedding <=> query ascending, the index's native order for ties). -/
structure Env where
  supervisorCall : AgentState → Except String SupOutcome
  rewriteCall : AgentState → Except String String
  embedCall : String → Except String (List ℚ)
  rowsFor : List ℚ → Nat → Except String (List Row)
  generateCall : AgentState → Except String String

/-- Content of messages[-1], defined for exactly the call sites that have
already checked the list is non-empty. -/
def lastContent (ms : List Message) : String :=
  (ms.getLast?.map Message.content).getD ""

/-- supervisor_agent of langgraph/agents/supervisor.py.  Empty messages
short-circuit to next_action end before any provider call.  A provider
exception is caught by the outer handler, which records the error and sets
next_action to end.  A JSON parse failure, or a parsed object lacking the
next_action key, defaults the action to generate_response without touching
the error field.  The function is total: no exception escapes. -/
def supervisorAgent (env : Env) (s : AgentState) : AgentState :=
  if s.messages = [] then { s with next_action := some "end" }
  else
    match env.supervisorCall s with
    | .error e =>
        { s with error := some ("Supervisor error: " ++ e),
                 next_action := some "end" }
    | .ok outcome =>
        let na : PyStr :=
          match outcome with
          | .notJson => some "generate_response"
          | .dict naField _ =>
              match naField with
              | none => some "generate_response"
              | some v => v
        addStep { s with next_action := na, current_agent := some "supervisor" }
          "supervisor" "route_decision"

/-- search_policies of mcp/tools.py.  The whole body is wrapped in a
try/except returning the empty list, so a raised embedding call or a raised
SQL round trip yields `[]` without touching the caller's state; on success
the pgvector results are normalized one by one in order. -/
def searchPolicies (env : Env) (query : String) (topK : Nat) : List Candidate :=
  match env.embedCall query with
  | .error _ => []
  | .ok emb =>
      match env.rowsFor emb topK with
      | .error _ => []
      | .ok rows => (pgSearch rows).map toolFormat

/-- policy_search_agent of langgraph/agents/policy_search.py.  A query
optimization failure falls back to the raw latest message (inner
try/except); the search tool call absorbs its own failures and returns a
list, so the agent's outer exception handler (which would set
search_results to [] and the error field) is unreachable on the modeled
paths; the search result is stored as returned and next_action is set to
generate_response unconditionally. -/
def policySearchAgent (env : Env) (s : AgentState) : AgentState :=
  if s.messages = [] then { s with next_action := some "end" }
  else
    let latest := lastContent s.messages
    let optimized :=
      match env.rewriteCall s with
      | .ok content => content.trim
      | .error _ => latest
    let results := searchPolicies env optimized 5
    addStep { s with search_results := results,
                     current_agent := some "policy_search",
                     next_action := some "generate_response" }
      "policy_search" "search_completed"

/-- Rendering of a string-or-None value inside a Python f-string:
`None` prints as the four letters None. -/
def pyRender : PyStr → String
  | none => "None"
  | some s => s

/-- Python slicing s[:n] on a string: its first n characters. -/
def pySlice (s : String) (n : Nat) : String := String.mk (s.data.take n)

/-- One formatted block of the results_text prompt section built by
response_generator_agent for one candidate.  The prompt is modeled
structurally (the surrounding Korean template text and the two-decimal score
rendering carry no information a claim depends on): each block holds the
1-based index and the rendered field values, with descSnippet being the
truncated description slice the source interpolates. -/
structure PromptEntry where
  idx : Nat
  title : String
  descSnippet : String
  category : String
  age_range : String
  region : String
  score : ℚ
deriving DecidableEq

/-- Builds one results_text block.  The description lookup finds a present
key (its default never fires for candidates built by search_policies), and
Python then evaluates value[:200]: when the stored value is None this raises
a TypeError, which the agent's outer handler turns into the fallback reply;
otherwise the slice keeps the first 200 characters. -/
def buildEntry (idx : Nat) (c : Candidate) : Except String PromptEntry :=
  match c.description with
  | none => .error "TypeError: NoneType object is not subscriptable"
  | some d =>
      .ok { idx := idx
            title := pyRender c.title
            descSnippet := pySlice d 200
            category := pyRender c.category
            age_range := c.age_range
            region := pyRender c.region
            score := c.similarity_score }

/-- Folds buildEntry over a candidate list with 1-based enumeration,
propagating the first raised exception as the loop would. -/
def buildEntries : Nat → List Candidate → Except String (List PromptEntry)
  | _, [] => .ok []
  | i, c :: cs => do
      let e ← buildEntry i c
      let es ← buildEntries (i + 1) cs
      .ok (e :: es)

/-- The results_text section of the synthesis prompt: the literal
no-results marker when search_results is empty, else one block per
candidate among the top three (enumerate over search_results[:3]). -/
inductive ResultsText where
  | noResults
  | blocks (es : List PromptEntry)
deriving DecidableEq

/-- Builds results_text as response_generator_agent does. -/
def buildResultsText (results : List Candidate) : Except String ResultsText :=
  match results with
  | [] => .ok .noResults
  | _ => (buildEntries 1 (results.take 3)).map .blocks

/-- The fallback reply used when synthesis fails and search_results is
non-empty, after the source applies .strip() to the triple-quoted f-string
(the stripped leading and trailing newlines are omitted from the literal).
It interpolates len(search_results) and the first candidate's title value. -/
def fallbackWithResults (n : Nat) (title : String) : String :=
  "죄송합니다, 응답을 생성하는 중 문제가 발생했습니다.\n\n하지만 관련 정책 " ++
    (toString n ++ ("개를 찾았습니다:\n1. " ++
      (title ++ "\n\n자세한 내용은 다시 질문해주시겠어요?")))

/-- The fallback reply used when synthesis fails and search_results is
empty, after .strip(). -/
def fallbackNoResults : String :=
  "죄송합니다, 요청하신 정책을 찾지 못했습니다.\n\n다른 방법으로 도와드릴 수 있어요:\n- 검색 조건을 다르게 입력해보세요\n- \"청년 정책\"처럼 넓은 범위로 검색해보세요\n\n무엇을 도와드릴까요?"

/-- The except-branch of response_generator_agent: picks the deterministic
fallback template by whether search_results is non-empty, stores it as
final_response, records the error, and appends the assistant message. -/
def rgFallback (s : AgentState) (e : String) : AgentState :=
  let fb :=
    match s.search_results with
    | [] => fallbackNoResults
    | c :: cs => fallbackWithResults (c :: cs).length (pyRender c.title)
  { s with final_response := some fb
           error := some ("Response generation error: " ++ e)
           current_agent := some "response_generator"
           next_action := some "end"
           messages := s.messages ++ [⟨"assistant", fb⟩] }

/-- response_generator_agent of langgraph/agents/response_generator.py.
Empty messages short-circuit to next_action end.  Any exception inside the
try block — building results_text (a None description under slicing) or the
generation call itself — reaches the single except handler and produces the
fallback reply; on success the trimmed response text is stored, the
assistant message appended, and one trace entry recorded.  Total: no
exception escapes. -/
def responseGeneratorAgent (env : Env) (s : AgentState) : AgentState :=
  if s.messages = [] then { s with next_action := some "end" }
  else
    match buildResultsText s.search_results with
    | .error e => rgFallback s e
    | .ok _rtext =>
        match env.generateCall s with
        | .error e => rgFallback s e
        | .ok content =>
            let fr := content.trim
            addStep { s with final_response := some fr
                             current_agent := some "response_generator"
                             next_action := some "end"
                             messages := s.messages ++ [⟨"assistant", fr⟩] }
              "response_generator" "response_generated"

/-- route_from_supervisor of langgraph/graph.py: reads exactly the
next_action value (the key is always present, so the source's
`state.get("next_action", "end")` returns the stored value, a Python None
included) and maps search_policies to the policy_search node,
generate_response to the response_generator node, end to the end edge, and
anything else — an unknown string or None — to response_generator. -/
def routeFromSupervisor (s : AgentState) : String :=
  match s.next_action with
  | some "search_policies" => "policy_search"
  | some "generate_response" => "response_generator"
  | some "end" => "end"
  | _ => "response_generator"

/-- route_from_policy_search of langgraph/graph.py: returns
response_generator unconditionally, whatever the state holds. -/
def routeFromPolicySearch (_s : AgentState) : String := "response_generator"

/-- The compiled workflow of create_workflow, executed on one input state:
entry point supervisor; conditional edges from supervisor through
route_from_supervisor mapping policy_search, response_generator and end to
the like-named nodes or END; conditional edges from policy_search through
route_from_policy_search mapping response_generator and end; an
unconditional edge from response_generator to END.  The catch-all branches
return the current state, mirroring reaching END. -/
def runGraph (env : Env) (s0 : AgentState) : AgentState :=
  match routeFromSupervisor (supervisorAgent env s0) with
  | "policy_search" =>
      match routeFromPolicySearch (policySearchAgent env (supervisorAgent env s0)) with
      | "response_generator" =>
          responseGeneratorAgent env (policySearchAgent env (supervisorAgent env s0))
      | _ => policySearchAgent env (supervisorAgent env s0)
  | "response_generator" => responseGeneratorAgent env (supervisorAgent env s0)
  | _ => supervisorAgent env s0

/-- run_workflow of langgraph/graph.py: builds the initial state, runs the
compiled workflow, and returns `final_state.get("final_response", default)`.
Because create_initial_state writes every key — final_response with value
None — the key is present in the final state and the Python dict.get returns
the stored value even when it is None; the fallback string of the call site
applies only to an absent key and is therefore unreachable, so the function
returns the stored value directly (Python None modeled as `none`).  The
surrounding try/except returns an error string instead of raising, and every
modeled component is total, so the function never raises. -/
def runWorkflow (env : Env) (userMessage : String)
    (userContext : List (String × String)) : PyStr :=
  (runGraph env (createInitialState userMessage userContext)).final_response

/-! Concrete fixtures used by the witnesses and counterexamples. -/

/-- A concrete pgvector row: the SQL-computed value row[18]
(one minus the cosine distance) is 4/5, so the cosine distance between the
query embedding and this record's embedding is 1/5. -/
def rowA : Row :=
  { id := 1
    policy_number := some "R2023-001"
    policy_name := some "청년 우대 적금"
    category := some "금융"
    region := some "서울"
    deadline := none
    summary := some "청년 적금 요약"
    full_text := some "만 19-34세 청년을 위한 우대 금리 적금 상품"
    filename := some "policy1.txt"
    sqlSimilarity := 4/5 }

/-- A 250-character description text, longer than the 200-character slice
the Synthesizer applies. -/
def longText : String := String.mk (List.replicate 250 'a')

/-- A concrete pgvector row with a NULL category and region column and a
250-character full_text. -/
def rowB : Row :=
  { id := 7
    policy_number := none
    policy_name := some "주거 지원 정책"
    category := none
    region := none
    deadline := none
    summary := none
    full_text := some longText
    filename := none
    sqlSimilarity := 9/10 }

/-- A second concrete pgvector row for order-preservation checks. -/
def rowC : Row :=
  { id := 2
    policy_number := none
    policy_name := some "청년 월세 지원"
    category := some "주거"
    region := some "부산"
    deadline := none
    summary := some "월세 지원 요약"
    full_text := none
    filename := none
    sqlSimilarity := 7/10 }

/-- An environment whose intent-classification call raises. -/
def envSupFail : Env :=
  { supervisorCall := fun _ => .error "API timeout"
    rewriteCall := fun _ => .error "unused"
    embedCall := fun _ => .error "unused"
    rowsFor := fun _ _ => .error "unused"
    generateCall := fun _ => .error "unused" }

/-- An environment whose intent-classification call returns text that is not
parseable JSON. -/
def envSupNotJson : Env :=
  { supervisorCall := fun _ => .ok .notJson
    rewriteCall := fun _ => .error "unused"
    embedCall := fun _ => .error "unused"
    rowsFor := fun _ _ => .error "unused"
    generateCall := fun _ => .error "unused" }

/-- An environment whose intent-classification call returns a JSON object
lacking the next_action key. -/
def envSupOmit : Env :=
  { supervisorCall := fun _ => .ok (.dict none (some (some "판단 근거")))
    rewriteCall := fun _ => .error "unused"
    embedCall := fun _ => .error "unused"
    rowsFor := fun _ _ => .error "unused"
    generateCall := fun _ => .error "unused" }

/-- An environment classifying the turn as end, with every other provider
healthy enough to notice if it were (wrongly) invoked. -/
def envEndRoute : Env :=
  { supervisorCall := fun _ => .ok (.dict (some (some "end")) (some (some "감사 인사이므로 종료")))
    rewriteCall := fun _ => .error "unused"
    embedCall := fun _ => .error "unused"
    rowsFor := fun _ _ => .error "unused"
    generateCall := fun _ => .error "unused" }

/-- A fully healthy environment routing to retrieval and returning two index
rows in a fixed order. -/
def envRetrieve : Env :=
  { supervisorCall := fun _ => .ok (.dict (some (some "search_policies")) none)
    rewriteCall := fun _ => .ok " 청년 적금 우대 금리 "
    embedCall := fun _ => .ok [1, 0]
    rowsFor := fun _ _ => .ok [rowA, rowC]
    generateCall := fun _ => .ok "25세시라면 청년 우대 적금을 추천드립니다." }

/-- An environment routing to retrieval whose embedding call raises and
whose synthesis call also raises. -/
def envEmbedFail : Env :=
  { supervisorCall := fun _ => .ok (.dict (some (some "search_policies")) none)
    rewriteCall := fun _ => .ok "청년 적금"
    embedCall := fun _ => .error "Embedding provider timeout"
    rowsFor := fun _ _ => .error "unreached"
    generateCall := fun _ => .error "Claude overloaded" }

/-- An environment whose synthesis call raises. -/
def envGenFail : Env :=
  { supervisorCall := fun _ => .error "unused"
    rewriteCall := fun _ => .error "unused"
    embedCall := fun _ => .error "unused"
    rowsFor := fun _ _ => .error "unused"
    generateCall := fun _ => .error "Bedrock throttled" }

/-- Initial state of a retrieval turn, as the supervisor leaves it before
the policy-search node runs. -/
def sRetrieval : AgentState :=
  { createInitialState "25살인데 적금 추천해줘" [("age", "25")] with
      next_action := some "search_policies" }

/-- A state about to enter synthesis carrying one retrieved candidate. -/
def sOneCandidate : AgentState :=
  { createInitialState "대학생 장학금 있어?" [] with
      search_results := [toolFormat (pgFormatRow rowA)] }

/-- A state whose turn list is empty. -/
def sEmptyTurns : AgentState :=
  { createInitialState "고마워" [] with messages := [] }

/-! Helper lemmas shared across the claim theorems. -/

/-- A string with a non-empty prefix is non-empty. -/
theorem string_append_ne_empty (p rest : String) (hp : p ≠ "") :
    p ++ rest ≠ "" := by
  obtain ⟨pd⟩ := p
  obtain ⟨rd⟩ := rest
  intro h
  have hd : pd ++ rd = ([] : List Char) := congrArg String.data h
  rcases List.append_eq_nil.mp hd with ⟨h1, _⟩
  exact hp (by rw [h1])

/-- The with-results fallback template is never the empty string. -/
theorem fallbackWithResults_ne_empty (n : Nat) (t : String) :
    fallbackWithResults n t ≠ "" :=
  string_append_ne_empty _ _ (by decide)

/-- The no-results fallback template is not the empty string. -/
theorem fallbackNoResults_ne_empty : fallbackNoResults ≠ "" := by decide

/-- Appending a trace entry leaves every other state field alone. -/
theorem addStep_frame (s : AgentState) (a b : String) :
    (addStep s a b).messages = s.messages ∧
    (addStep s a b).user_context = s.user_context ∧
    (addStep s a b).next_action = s.next_action ∧
    (addStep s a b).search_results = s.search_results ∧
    (addStep s a b).final_response = s.final_response ∧
    (addStep s a b).error = s.error :=
  ⟨rfl, rfl, rfl, rfl, rfl, rfl⟩

/-- The fallback branch of the Synthesizer stores the template selected by
whether search_results is empty. -/
theorem rgFallback_final_response (s : AgentState) (e : String) :
    (rgFallback s e).final_response =
      some (match s.search_results with
        | [] => fallbackNoResults
        | c :: cs => fallbackWithResults (c :: cs).length (pyRender c.title)) := rfl

/-- When the synthesis generation call raises, response_generator_agent
lands in its exception handler whichever way results_text construction
went. -/
theorem rg_fallback_reached (env : Env) (s : AgentState) (e : String)
    (hm : ¬s.messages = []) (hgen : env.generateCall s = .error e) :
    ∃ msg, responseGeneratorAgent env s = rgFallback s msg := by
  unfold responseGeneratorAgent
  rw [if_neg hm]
  cases hb : buildResultsText s.search_results with
  | error e2 => exact ⟨e2, rfl⟩
  | ok rt => rw [hgen]; exact ⟨e, rfl⟩

/-- The policy-search node never touches the message list. -/
theorem policySearchAgent_messages (env : Env) (s : AgentState) :
    (policySearchAgent env s).messages = s.messages := by
  unfold policySearchAgent
  split <;> rfl

/-- Whatever the query-optimization call does, the policy-search node's
output is one trace-extended record update around some search query, and
that query is the raw latest message whenever the optimization call
raised. -/
theorem policySearchAgent_shape (env : Env) (s : AgentState)
    (hm : ¬s.messages = []) :
    ∃ q2, policySearchAgent env s =
        addStep { s with search_results := searchPolicies env q2 5,
                         current_agent := some "policy_search",
                         next_action := some "generate_response" }
          "policy_search" "search_completed" ∧
      (∀ e, env.rewriteCall s = .error e → q2 = lastContent s.messages) := by
  unfold policySearchAgent
  rw [if_neg hm]
  cases henv : env.rewriteCall s with
  | error e => exact ⟨lastContent s.messages, rfl, fun _ _ => rfl⟩
  | ok content =>
      refine ⟨content.trim, rfl, fun e2 h2 => ?_⟩
      cases h2

/-- When the embedding provider or the vector-index round trip is raising,
the search tool returns the empty list. -/
theorem searchPolicies_fails_empty (env : Env) (q : String) (k : Nat)
    (hfail : (∀ q2, ∃ m, env.embedCall q2 = .error m) ∨
             (∀ v k2, ∃ m, env.rowsFor v k2 = .error m)) :
    searchPolicies env q k = [] := by
  unfold searchPolicies
  rcases hfail with hemb | hrows
  · obtain ⟨m, hm2⟩ := hemb q
    simp [hm2]
  · cases he : env.embedCall q with
    | error m => rfl
    | ok emb =>
        obtain ⟨m, hm2⟩ := hrows emb k
        simp [hm2]

/-- The fallback reply is always a non-empty string. -/
theorem rgFallback_nonempty (s : AgentState) (e : String) :
    ∃ r, (rgFallback s e).final_response = some r ∧ r ≠ "" := by
  rw [rgFallback_final_response]
  cases hr : s.search_results with
  | nil => exact ⟨fallbackNoResults, rfl, fallbackNoResults_ne_empty⟩
  | cons c cs =>
      exact ⟨fallbackWithResults (c :: cs).length (pyRender c.title), rfl,
        fallbackWithResults_ne_empty _ _⟩

/-! Claim theorems. -/

/-- C4: the claim states that the similarity_score attached to an emitted
candidate equals 1 - cosine_distance, higher meaning more similar.  The
code disagrees with the claim and with its own docstrings: for the concrete
hit rowA, whose cosine distance to the query embedding is 1/5 (the SQL
computes row[18] = 1 - cosine_distance = 4/5, PgVectorClient.search then
stores distance = 1 - row[18] = 1/5, and search_policies copies that
distance into the similarity_score key), the emitted similarity_score is
1/5 — the cosine distance itself, lower meaning more similar — while
1 - cosine_distance is 4/5, so the two differ. -/
theorem C4_similarity_score_is_cosine_distance :
    (toolFormat (pgFormatRow rowA)).similarity_score = 1 - rowA.sqlSimilarity ∧
    (toolFormat (pgFormatRow rowA)).similarity_score = 1/5 ∧
    1 - (1 - rowA.sqlSimilarity) = (4/5 : ℚ) ∧
    (toolFormat (pgFormatRow rowA)).similarity_score ≠ 1 - (1 - rowA.sqlSimilarity) := by
  refine ⟨?_, ?_, ?_, ?_⟩ <;>
    norm_num [toolFormat, pgFormatRow, rowA, round4, roundHalfEven]

/-- C8: when the embedding call and the vector-index round trip succeed, the
candidate list emitted by the search tool is exactly the per-hit
normalization mapped over the index's row list in its returned order — same
length, same order, no core-side re-sort — and the Retriever stores the
tool's output as its search_results without reordering. -/
theorem C8_order_preserved (env : Env) (q : String) (k : Nat)
    (emb : List ℚ) (rows : List Row)
    (hemb : env.embedCall q = .ok emb)
    (hrows : env.rowsFor emb k = .ok rows) :
    searchPolicies env q k = rows.map (fun r => toolFormat (pgFormatRow r)) ∧
    (searchPolicies env q k).length = rows.length ∧
    (∀ s : AgentState, ¬s.messages = [] →
      ∃ q2, (policySearchAgent env s).search_results = searchPolicies env q2 5) := by
  refine ⟨?_, ?_, ?_⟩
  · simp [searchPolicies, hemb, hrows, pgSearch, List.map_map, Function.comp]
  · simp [searchPolicies, hemb, hrows, pgSearch]
  · intro s hm
    unfold policySearchAgent
    rw [if_neg hm]
    cases henv : env.rewriteCall s with
    | error e => exact ⟨lastContent s.messages, rfl⟩
    | ok content => exact ⟨content.trim, rfl⟩

/-- C8 witness: in the healthy environment envRetrieve the tool emits the
normalizations of rowA and rowC in exactly that order. -/
theorem C8_order_preserved_witness :
    searchPolicies envRetrieve "적금" 2 =
      [rowA, rowC].map (fun r => toolFormat (pgFormatRow r)) ∧
    (searchPolicies envRetrieve "적금" 2).length = 2 :=
  ⟨(C8_order_preserved envRetrieve "적금" 2 [1, 0] [rowA, rowC] rfl rfl).1,
   (C8_order_preserved envRetrieve "적금" 2 [1, 0] [rowA, rowC] rfl rfl).2.1⟩

/-- C9 counterexample: the claim states every unknown optional field of a
normalized candidate defaults to the empty string and every description is
truncated to a bounded length.  For the concrete hit rowB, whose category
column is NULL and whose full text has 250 characters, the emitted
candidate's category is None — not the empty string — and its description
is the full 250-character text, exceeding the 200-character budget the
Synthesizer later applies. -/
theorem C9_counterexample :
    (toolFormat (pgFormatRow rowB)).category = none ∧
    (none : PyStr) ≠ some "" ∧
    (toolFormat (pgFormatRow rowB)).description = some longText ∧
    200 < longText.length := by
  refine ⟨rfl, by decide, rfl, ?_⟩
  show 200 < (List.replicate 250 'a').length
  rw [List.length_replicate]
  omega

/-- C9 amended: the Retriever's normalization stores the hit's description
in full and untruncated — the 200-character truncation happens only when
the Synthesizer slices the description while building its prompt — and of
the normalized fields only age_range (a key absent from this index's
metadata) defaults to the empty string, while title, description, category
and region are passed through unchanged, a NULL column staying None. -/
theorem C9_amended (r : Row) :
    (toolFormat (pgFormatRow r)).description = pyOr r.full_text r.summary ∧
    (toolFormat (pgFormatRow r)).age_range = "" ∧
    (toolFormat (pgFormatRow r)).title = r.policy_name ∧
    (toolFormat (pgFormatRow r)).category = r.category ∧
    (toolFormat (pgFormatRow r)).region = r.region ∧
    (∀ i d, (toolFormat (pgFormatRow r)).description = some d →
      buildEntry i (toolFormat (pgFormatRow r)) =
        .ok { idx := i
              title := pyRender r.policy_name
              descSnippet := pySlice d 200
              category := pyRender r.category
              age_range := ""
              region := pyRender r.region
              score := round4 (1 - r.sqlSimilarity) } ∧
      (pySlice d 200).length ≤ 200) := by
  refine ⟨rfl, rfl, rfl, rfl, rfl, ?_⟩
  intro i d hd
  constructor
  · unfold buildEntry
    rw [hd]
    rfl
  · show (d.data.take 200).length ≤ 200
    rw [List.length_take]
    exact min_le_left _ _

/-- C9 amended witness: instantiated at the concrete hit rowB, whose
250-character description the Retriever stores whole and the Synthesizer
slices to 200 characters. -/
theorem C9_amended_witness :
    (toolFormat (pgFormatRow rowB)).description = pyOr rowB.full_text rowB.summary ∧
    (toolFormat (pgFormatRow rowB)).age_range = "" ∧
    (pySlice longText 200).length ≤ 200 :=
  ⟨(C9_amended rowB).1, (C9_amended rowB).2.1,
   ((C9_amended rowB).2.2.2.2.2 1 longText rfl).2⟩

/-- C2 counterexample: the claim states that an Intent Router
text-generation failure makes the router set next_action to
generate_response and never silently terminate the turn.  In the concrete
environment envSupFail whose classification call raises, the router instead
sets next_action to end — the routing value that terminates the turn — and
not to generate_response. -/
theorem C2_counterexample :
    (supervisorAgent envSupFail (createInitialState "적금 추천해줘" [])).next_action
      = some "end" ∧
    (some "end" : PyStr) ≠ some "generate_response" := by
  exact ⟨rfl, by decide⟩

/-- C2 amended: a JSON parse failure, or a parsed object lacking the
next_action key, makes the router default next_action to generate_response
while leaving the error field untouched; a raised text-generation call
instead records the error in the error field and sets next_action to end,
terminating the turn.  In every case the stage is total — no exception
escapes it. -/
theorem C2_amended (env : Env) (s : AgentState) (hm : ¬s.messages = []) :
    (env.supervisorCall s = .ok .notJson →
        (supervisorAgent env s).next_action = some "generate_response" ∧
        (supervisorAgent env s).error = s.error) ∧
    (∀ rsn, env.supervisorCall s = .ok (.dict none rsn) →
        (supervisorAgent env s).next_action = some "generate_response" ∧
        (supervisorAgent env s).error = s.error) ∧
    (∀ e, env.supervisorCall s = .error e →
        (supervisorAgent env s).next_action = some "end" ∧
        (supervisorAgent env s).error = some ("Supervisor error: " ++ e)) := by
  unfold supervisorAgent
  rw [if_neg hm]
  refine ⟨?_, ?_, ?_⟩
  · intro hc
    rw [hc]
    exact ⟨rfl, rfl⟩
  · intro rsn hc
    rw [hc]
    exact ⟨rfl, rfl⟩
  · intro e hc
    rw [hc]
    exact ⟨rfl, rfl⟩

/-- C2 amended witness: instantiated at concrete environments whose
classification call returns unparseable text, a JSON object without
next_action, and a raised exception respectively. -/
theorem C2_amended_witness :
    (supervisorAgent envSupNotJson (createInitialState "적금 추천해줘" [])).next_action
      = some "generate_response" ∧
    (supervisorAgent envSupOmit (createInitialState "적금 추천해줘" [])).next_action
      = some "generate_response" ∧
    (supervisorAgent envSupOmit (createInitialState "적금 추천해줘" [])).error = none ∧
    (supervisorAgent envSupFail (createInitialState "적금 추천해줘" [])).error
      = some "Supervisor error: API timeout" :=
  ⟨((C2_amended envSupNotJson (createInitialState "적금 추천해줘" [])
      (by decide)).1 rfl).1,
   ((C2_amended envSupOmit (createInitialState "적금 추천해줘" [])
      (by decide)).2.1 (some (some "판단 근거")) rfl).1,
   ((C2_amended envSupOmit (createInitialState "적금 추천해줘" [])
      (by decide)).2.1 (some (some "판단 근거")) rfl).2,
   ((C2_amended envSupFail (createInitialState "적금 추천해줘" [])
      (by decide)).2.2 "API timeout" rfl).2⟩

/-- C5: the workflow routing is a deterministic pure function of
next_action — equal next_action values route equally; search_policies maps
to the policy-search node, generate_response to the response-generator
node, end to the end edge, and any other value (an unrecognized string or a
missing action) to the response-generator node — and after the
policy-search node runs the transition is unconditionally to the
response-generator node, so whenever a run enters the retriever its final
state is the synthesizer applied to the retriever's output. -/
theorem C5_routing_deterministic :
    (∀ s t : AgentState, s.next_action = t.next_action →
        routeFromSupervisor s = routeFromSupervisor t) ∧
    (∀ s : AgentState, s.next_action = some "search_policies" →
        routeFromSupervisor s = "policy_search") ∧
    (∀ s : AgentState, s.next_action = some "generate_response" →
        routeFromSupervisor s = "response_generator") ∧
    (∀ s : AgentState, s.next_action = some "end" →
        routeFromSupervisor s = "end") ∧
    (∀ s : AgentState, s.next_action ≠ some "search_policies" →
        s.next_action ≠ some "generate_response" → s.next_action ≠ some "end" →
        routeFromSupervisor s = "response_generator") ∧
    (∀ s : AgentState, routeFromPolicySearch s = "response_generator") ∧
    (∀ (env : Env) (s0 : AgentState),
        routeFromSupervisor (supervisorAgent env s0) = "policy_search" →
        runGraph env s0 =
          responseGeneratorAgent env (policySearchAgent env (supervisorAgent env s0))) := by
  refine ⟨?_, ?_, ?_, ?_, ?_, ?_, ?_⟩
  · intro s t h
    unfold routeFromSupervisor
    rw [h]
  · intro s h
    unfold routeFromSupervisor
    rw [h]
    rfl
  · intro s h
    unfold routeFromSupervisor
    rw [h]
    rfl
  · intro s h
    unfold routeFromSupervisor
    rw [h]
    rfl
  · intro s h1 h2 h3
    unfold routeFromSupervisor
    rcases hna : s.next_action with _ | a
    · rfl
    · rw [hna] at h1 h2 h3
      have g1 : a ≠ "search_policies" := fun hh => h1 (by rw [hh])
      have g2 : a ≠ "generate_response" := fun hh => h2 (by rw [hh])
      have g3 : a ≠ "end" := fun hh => h3 (by rw [hh])
      simp [g1, g2, g3]
  · intro s
    rfl
  · intro env s0 h
    unfold runGraph
    rw [h]
    rfl

/-- C5 witness: instantiated at concrete states for each action, and at the
concrete environment envRetrieve for the retriever-to-synthesizer leg. -/
theorem C5_routing_deterministic_witness :
    routeFromSupervisor { sRetrieval with next_action := some "search_policies" }
      = "policy_search" ∧
    routeFromSupervisor { sRetrieval with next_action := some "generate_response" }
      = "response_generator" ∧
    routeFromSupervisor { sRetrieval with next_action := some "end" } = "end" ∧
    routeFromSupervisor { sRetrieval with next_action := some "check_eligibility" }
      = "response_generator" ∧
    routeFromPolicySearch sRetrieval = "response_generator" ∧
    runGraph envRetrieve (createInitialState "25살인데 적금 추천해줘" [("age", "25")]) =
      responseGeneratorAgent envRetrieve
        (policySearchAgent envRetrieve
          (supervisorAgent envRetrieve
            (createInitialState "25살인데 적금 추천해줘" [("age", "25")]))) :=
  ⟨C5_routing_deterministic.2.1 _ rfl,
   C5_routing_deterministic.2.2.1 _ rfl,
   C5_routing_deterministic.2.2.2.1 _ rfl,
   C5_routing_deterministic.2.2.2.2.1 _ (by decide) (by decide) (by decide),
   C5_routing_deterministic.2.2.2.2.2.1 _,
   C5_routing_deterministic.2.2.2.2.2.2 envRetrieve _ rfl⟩

/-- C1: the claim states that for every non-empty turn list run_workflow
returns a non-empty reply string, including when the Intent Router chooses
the end route.  The code disagrees with the claim, with its own return
annotation (str) and with the fallback default it passes to dict.get: on
the clean end route (classification succeeded, no upstream failure, error
field still None) no node ever writes final_response, the key is present in
the final state with value None, dict.get therefore ignores its default,
and run_workflow hands the caller Python None instead of a non-empty
string. -/
theorem C1_end_route_returns_none :
    (runGraph envEndRoute (createInitialState "고마워" [])).next_action = some "end" ∧
    (runGraph envEndRoute (createInitialState "고마워" [])).error = none ∧
    runWorkflow envEndRoute "고마워" [] = none :=
  ⟨rfl, rfl, rfl⟩

/-- C3 counterexample: the claim states that an exception during embedding
generation sets candidates to the empty list and sets the error field.  In
the concrete environment envEmbedFail, whose embedding call raises, the
search tool swallows the exception internally: candidates are indeed empty
and the turn proceeds to synthesis, but the error field stays None, so the
conjunct about recording the failure is false. -/
theorem C3_counterexample :
    (policySearchAgent envEmbedFail sRetrieval).search_results = [] ∧
    (policySearchAgent envEmbedFail sRetrieval).error = none ∧
    (policySearchAgent envEmbedFail sRetrieval).next_action = some "generate_response" :=
  ⟨rfl, rfl, rfl⟩

/-- C3 amended: an exception raised by embedding generation or by the
vector-index round trip is swallowed inside the search tool, which returns
the empty list — candidates become empty while the error field is left
unchanged — and an exception during query rewriting instead falls back to
searching with the raw latest message; in every case the Retriever sets
next_action to generate_response so the pipeline proceeds to the
Synthesizer, whose reply is a non-empty fallback string whenever its own
generation call raises. -/
theorem C3_amended (env : Env) (s : AgentState) (hm : ¬s.messages = []) :
    ((∀ q2, ∃ m, env.embedCall q2 = .error m) ∨
        (∀ v k2, ∃ m, env.rowsFor v k2 = .error m) →
      (policySearchAgent env s).search_results = [] ∧
      (policySearchAgent env s).error = s.error ∧
      (policySearchAgent env s).next_action = some "generate_response") ∧
    (∀ e, env.rewriteCall s = .error e →
      (policySearchAgent env s).search_results =
        searchPolicies env (lastContent s.messages) 5) ∧
    (∀ e2, env.generateCall (policySearchAgent env s) = .error e2 →
      ∃ r, (responseGeneratorAgent env (policySearchAgent env s)).final_response
          = some r ∧ r ≠ "") := by
  obtain ⟨q2, hshape, hraw⟩ := policySearchAgent_shape env s hm
  refine ⟨?_, ?_, ?_⟩
  · intro hfail
    rw [hshape]
    exact ⟨by rw [show (addStep { s with
          search_results := searchPolicies env q2 5,
          current_agent := some "policy_search",
          next_action := some "generate_response" }
          "policy_search" "search_completed").search_results
            = searchPolicies env q2 5 from rfl,
        searchPolicies_fails_empty env q2 5 hfail], rfl, rfl⟩
  · intro e herr
    rw [hshape, hraw e herr]
    rfl
  · intro e2 hgen
    have hm2 : ¬(policySearchAgent env s).messages = [] := by
      rw [policySearchAgent_messages]
      exact hm
    obtain ⟨msg, hmsg⟩ := rg_fallback_reached env _ e2 hm2 hgen
    rw [hmsg]
    exact rgFallback_nonempty _ msg

/-- C3 amended witness: in the concrete environment envEmbedFail the
retriever emits empty candidates without recording an error, and the
synthesizer — whose generation call also raises there — still produces a
non-empty reply. -/
theorem C3_amended_witness :
    (policySearchAgent envEmbedFail sRetrieval).search_results = [] ∧
    (policySearchAgent envEmbedFail sRetrieval).error = none ∧
    (∃ r, (responseGeneratorAgent envEmbedFail
        (policySearchAgent envEmbedFail sRetrieval)).final_response
          = some r ∧ r ≠ "") :=
  ⟨((C3_amended envEmbedFail sRetrieval (by decide)).1
      (Or.inl fun _ => ⟨"Embedding provider timeout", rfl⟩)).1,
   ((C3_amended envEmbedFail sRetrieval (by decide)).1
      (Or.inl fun _ => ⟨"Embedding provider timeout", rfl⟩)).2.1,
   (C3_amended envEmbedFail sRetrieval (by decide)).2.2 "Claude overloaded" rfl⟩

/-- C6: when the synthesis generation call raises, the Synthesizer stores a
deterministic fallback template as the reply — the template naming the
first candidate's title when candidates are non-empty, the
broaden-your-query apology when they are empty — and in either case the
stored reply is a non-empty string; the stage itself is a total function,
so no exception escapes it. -/
theorem C6_synthesis_fallback (env : Env) (s : AgentState) (e : String)
    (hm : ¬s.messages = []) (hgen : env.generateCall s = .error e) :
    (s.search_results = [] →
        (responseGeneratorAgent env s).final_response = some fallbackNoResults) ∧
    (∀ c cs, s.search_results = c :: cs →
        (responseGeneratorAgent env s).final_response =
          some (fallbackWithResults (c :: cs).length (pyRender c.title))) ∧
    (∃ r, (responseGeneratorAgent env s).final_response = some r ∧ r ≠ "") := by
  obtain ⟨msg, hmsg⟩ := rg_fallback_reached env s e hm hgen
  rw [hmsg]
  refine ⟨?_, ?_, rgFallback_nonempty s msg⟩
  · intro hr
    rw [rgFallback_final_response, hr]
  · intro c cs hr
    rw [rgFallback_final_response, hr]

/-- C6 witness: in the concrete environment envGenFail the synthesizer
falls back to the single-candidate template naming rowA's title, and to the
no-results template when candidates are empty. -/
theorem C6_synthesis_fallback_witness :
    (responseGeneratorAgent envGenFail sOneCandidate).final_response =
      some (fallbackWithResults 1 (pyRender (toolFormat (pgFormatRow rowA)).title)) ∧
    (responseGeneratorAgent envGenFail
        { sOneCandidate with search_results := [] }).final_response =
      some fallbackNoResults :=
  ⟨(C6_synthesis_fallback envGenFail sOneCandidate "Bedrock throttled"
      (by decide) rfl).2.1 (toolFormat (pgFormatRow rowA)) [] rfl,
   (C6_synthesis_fallback envGenFail { sOneCandidate with search_results := [] }
      "Bedrock throttled" (by decide) rfl).1 rfl⟩

/-- C7: when the turn list is empty the supervisor sets next_action to end
before reaching any provider call and the workflow stops at the terminal
edge in exactly that state; the whole run is independent of every provider
oracle — the right-hand side mentions none of them and any two
environments produce the same final state — so no provider is invoked on
such a run. -/
theorem C7_empty_input (env env' : Env) (s0 : AgentState)
    (hm : s0.messages = []) :
    supervisorAgent env s0 = { s0 with next_action := some "end" } ∧
    runGraph env s0 = { s0 with next_action := some "end" } ∧
    runGraph env s0 = runGraph env' s0 := by
  have hsup : ∀ e : Env, supervisorAgent e s0 = { s0 with next_action := some "end" } := by
    intro e
    unfold supervisorAgent
    rw [if_pos hm]
  have hrun : ∀ e : Env, runGraph e s0 = { s0 with next_action := some "end" } := by
    intro e
    unfold runGraph
    rw [hsup e]
    rfl
  exact ⟨hsup env, hrun env, by rw [hrun env, hrun env']⟩

/-- C7 witness: on the concrete empty-turns state the run ends in the
terminal state with next_action end under an environment whose providers
all raise, and coincides with the run under a fully healthy environment. -/
theorem C7_empty_input_witness :
    runGraph envSupFail sEmptyTurns = { sEmptyTurns with next_action := some "end" } ∧
    runGraph envSupFail sEmptyTurns = runGraph envRetrieve sEmptyTurns :=
  ⟨(C7_empty_input envSupFail envRetrieve sEmptyTurns rfl).2.1,
   (C7_empty_input envSupFail envRetrieve sEmptyTurns rfl).2.2⟩

/-- C10: none of the three pipeline stages mutates user_context — each
returns a state whose user_context mapping equals the input state's,
whatever the providers do. -/
theorem C10_user_context_preserved (env : Env) (s : AgentState) :
    (supervisorAgent env s).user_context = s.user_context ∧
    (policySearchAgent env s).user_context = s.user_context ∧
    (responseGeneratorAgent env s).user_context = s.user_context := by
  refine ⟨?_, ?_, ?_⟩
  · unfold supervisorAgent
    split
    · rfl
    · cases env.supervisorCall s with
      | error e => rfl
      | ok o => rfl
  · unfold policySearchAgent
    split <;> rfl
  · unfold responseGeneratorAgent
    split
    · rfl
    · cases buildResultsText s.search_results with
      | error e => rfl
      | ok rt =>
          cases env.generateCall s with
          | error e => rfl
          | ok content => rfl

end FinKuRN
